import Mathlib

set_option autoImplicit false

namespace PartyManager

/-! Shallow embedding of the party-manager bot's session lifecycle,
timer-scheduling subsystem, startup reconciliation and role-selection
logic (src/services/sessionScheduler.ts and
src/modules/session/controller/session.controller.ts).  Instants are
integers (epoch milliseconds); the current wall-clock time is passed
explicitly as a parameter named now. -/

/-- Session lifecycle status, from session.types.ts. -/
inductive SessionStatus
  | SCHEDULED
  | FULL
  | ACTIVE
  | COMPLETED
  | CANCELED
  deriving DecidableEq, Repr

/-- Roster roles; GAME_MASTER is the single exclusive role, the rest are
ordinary roles (the concrete ordinary tags seen in the sources are TANK
and SUPPORT). -/
inductive RoleType
  | GAME_MASTER
  | TANK
  | SUPPORT
  deriving DecidableEq, Repr

/-- A roster entry, from party.types.ts. -/
structure PartyMember where
  userId : String
  username : String
  channelId : String
  role : RoleType
  deriving DecidableEq, Repr

/-- A session record as loaded from the store (SessionWithParty). -/
structure Session where
  id : String
  name : String
  date : Int
  campaignId : String
  guildId : String
  eventId : Option String
  timezone : String
  status : SessionStatus
  partyMembers : List PartyMember
  deriving DecidableEq, Repr

/-- Modelled from the spec: getHoursBefore of shared/datetime/dateUtils.ts
(not under src/) computes the instant h hours before d. -/
def getHoursBefore (d : Int) (h : Int) : Int := d - h * 3600000

/-- Modelled from the spec: getMinutesBefore of shared/datetime/dateUtils.ts
(not under src/) computes the instant m minutes before d. -/
def getMinutesBefore (d : Int) (m : Int) : Int := d - m * 60000

/-- Modelled from the spec: getHoursAfter of shared/datetime/dateUtils.ts
(not under src/) computes the instant h hours after d. -/
def getHoursAfter (d : Int) (h : Int) : Int := d + h * 3600000

/-- Modelled from the spec: isFutureDate of shared/datetime/dateUtils.ts
(not under src/) is true when the instant d is strictly after now. -/
def isFutureDate (now : Int) (d : Int) : Bool := now < d

/-- One ScheduledTask entry of the scheduler registry; each job slot holds
the instant its one-shot cron job will fire at (none when the job was
skipped, already fired, or stopped). -/
structure ScheduledTask where
  sessionId : String
  reminderJob : Option Int := none
  cancellationJob : Option Int := none
  completionJob : Option Int := none
  deriving DecidableEq, Repr

/-- The scheduler's private Map of session id to ScheduledTask, embedded as
an association list with JS-Map semantics. -/
abbrev TaskMap := List (String × ScheduledTask)

/-- Map.get: first entry with the given key. -/
def findTask : TaskMap → String → Option ScheduledTask
  | [], _ => none
  | (k, t) :: rest, id => if k = id then some t else findTask rest id

/-- Map.delete: drop the entry with the given key. -/
def eraseTask : TaskMap → String → TaskMap
  | [], _ => []
  | (k, t) :: rest, id =>
      if k = id then eraseTask rest id else (k, t) :: eraseTask rest id

/-- Map.set: replace in place when the key is present, append otherwise. -/
def setTask : TaskMap → String → ScheduledTask → TaskMap
  | [], id, t => [(id, t)]
  | (k, u) :: rest, id, t =>
      if k = id then (id, t) :: rest else (k, u) :: setTask rest id t

/-- Number of entries with the given key (used to state uniqueness). -/
def countKey : TaskMap → String → Nat
  | [], _ => 0
  | (k, _) :: rest, id => (if k = id then 1 else 0) + countKey rest id

/-- SessionScheduler.cancelSessionTasks: stop all jobs of the entry for the
id and delete it (a no-op when no entry exists). -/
def cancelSessionTasks (m : TaskMap) (id : String) : TaskMap :=
  match findTask m id with
  | some _ => eraseTask m id
  | none => m

/-- The ScheduledTask built by SessionScheduler.scheduleSessionTasks: a job
per target instant still in the future, the rest skipped. -/
def mkScheduledTask (now : Int) (id : String) (d : Int) : ScheduledTask :=
  { sessionId := id
    reminderJob :=
      if isFutureDate now (getHoursBefore d 1) then some (getHoursBefore d 1) else none
    cancellationJob :=
      if isFutureDate now (getMinutesBefore d 5) then some (getMinutesBefore d 5) else none
    completionJob :=
      if isFutureDate now (getHoursAfter d 5) then some (getHoursAfter d 5) else none }

/-- SessionScheduler.scheduleSessionTasks: always cancel any prior set for
the id first, then install jobs for the still-future instants and register
the entry only when at least one job was installed. -/
def scheduleSessionTasks (now : Int) (m : TaskMap) (id : String) (d : Int) : TaskMap :=
  let m1 := cancelSessionTasks m id
  let task := mkScheduledTask now id d
  if task.reminderJob.isSome || task.cancellationJob.isSome || task.completionJob.isSome then
    setTask m1 id task
  else
    m1

/-- SessionScheduler.getScheduledTaskCount. -/
def getScheduledTaskCount (m : TaskMap) : Nat := m.length

/-- Failure configuration of the effectful collaborators reached by one
controller call; updateStatusFails stands for the persistent store
rejecting the status write, the others for optional side effects. -/
structure EffectEnv where
  deleteEventFails : Bool
  updateStatusFails : Bool
  regenerateFails : Bool
  notifyFails : Bool
  deriving DecidableEq, Repr

/-- Environment where every collaborator succeeds. -/
def noFail : EffectEnv :=
  { deleteEventFails := false, updateStatusFails := false,
    regenerateFails := false, notifyFails := false }

/-- Observable outcome of cancelSession and endSession: the persisted
session, the scheduler registry, whether an error was re-raised to the
caller, which optional side effects took place, and the cancellation
reason that reached the presentation layer. -/
structure OpResult where
  session : Session
  tasks : TaskMap
  raised : Bool
  eventDeleted : Bool
  messageRegenerated : Bool
  partyNotified : Bool
  cancellationNotice : Option String
  deriving DecidableEq, Repr

/-- session.controller.ts cancelSession: cancel timers, best-effort delete
of the external event, critical CANCELED status write (re-raised on
failure), then best-effort message regeneration and party notification. -/
def cancelSession (env : EffectEnv) (tasks : TaskMap) (s : Session)
    (reason : String) : OpResult :=
  let tasks1 := cancelSessionTasks tasks s.id
  let eventDeleted := s.eventId.isSome && !env.deleteEventFails
  if env.updateStatusFails then
    { session := s, tasks := tasks1, raised := true, eventDeleted := eventDeleted,
      messageRegenerated := false, partyNotified := false, cancellationNotice := none }
  else
    { session := { s with status := SessionStatus.CANCELED }, tasks := tasks1,
      raised := false, eventDeleted := eventDeleted,
      messageRegenerated := !env.regenerateFails,
      partyNotified := !env.notifyFails,
      cancellationNotice := some reason }

/-- session.controller.ts endSession: cancel timers, best-effort delete of
the external event, critical COMPLETED status write (re-raised on
failure), then best-effort message regeneration. -/
def endSession (env : EffectEnv) (tasks : TaskMap) (s : Session) : OpResult :=
  let tasks1 := cancelSessionTasks tasks s.id
  let eventDeleted := s.eventId.isSome && !env.deleteEventFails
  if env.updateStatusFails then
    { session := s, tasks := tasks1, raised := true, eventDeleted := eventDeleted,
      messageRegenerated := false, partyNotified := false, cancellationNotice := none }
  else
    { session := { s with status := SessionStatus.COMPLETED }, tasks := tasks1,
      raised := false, eventDeleted := eventDeleted,
      messageRegenerated := !env.regenerateFails,
      partyNotified := false, cancellationNotice := none }

/-- sessionScheduler.ts cancelUnfilledSession: build the shortfall reason,
call cancelSession, and on failure fall back to a direct CANCELED status
write; every failure is swallowed. -/
def cancelUnfilledSession (env : EffectEnv) (tasks : TaskMap) (s : Session) : OpResult :=
  let reason := "Insufficient players (" ++ toString s.partyMembers.length ++ "/6)"
  let r := cancelSession env tasks s reason
  if r.raised then
    if env.updateStatusFails then
      { r with raised := false }
    else
      { r with raised := false, session := { s with status := SessionStatus.CANCELED } }
  else r

/-- Observable outcome of a timer callback or of one reconciliation step. -/
structure TimerResult where
  session : Session
  tasks : TaskMap
  cancellationNotice : Option String
  deriving DecidableEq, Repr

/-- sessionScheduler.ts handleCancellation (the fill-deadline callback):
reload the roster; when it is below 6 cancel the unfilled session, else
write ACTIVE (failure swallowed) and regenerate the message; in both
branches finish by cancelling every remaining task of the session. -/
def handleCancellation (env : EffectEnv) (tasks : TaskMap) (s : Session) : TimerResult :=
  let isPartyFull := decide (6 ≤ s.partyMembers.length)
  if !isPartyFull then
    let r := cancelUnfilledSession env tasks s
    { session := r.session, tasks := cancelSessionTasks r.tasks s.id,
      cancellationNotice := r.cancellationNotice }
  else
    let s1 := if env.updateStatusFails then s else { s with status := SessionStatus.ACTIVE }
    { session := s1, tasks := cancelSessionTasks tasks s.id, cancellationNotice := none }

/-- sessionScheduler.ts handleCompletion (the completion callback): skip
unless the reloaded status is ACTIVE, else endSession; the finally block
cancels the session's tasks either way. -/
def handleCompletion (env : EffectEnv) (tasks : TaskMap) (s : Session) : TimerResult :=
  if s.status ≠ SessionStatus.ACTIVE then
    { session := s, tasks := cancelSessionTasks tasks s.id, cancellationNotice := none }
  else
    let r := endSession env tasks s
    { session := r.session, tasks := cancelSessionTasks r.tasks s.id,
      cancellationNotice := none }

/-- sessionScheduler.ts handleMissedSessions, body of the per-session loop:
sessions still in the future are left alone; a past-start ACTIVE session is
completed or gets its completion timer rescheduled; a past-start
SCHEDULED/FULL session is activated when full, else canceled with the
recovery reason. -/
def handleMissedSession (now : Int) (env : EffectEnv) (tasks : TaskMap)
    (s : Session) : TimerResult :=
  if isFutureDate now s.date then
    { session := s, tasks := tasks, cancellationNotice := none }
  else
    let completionTime := getHoursAfter s.date 5
    if s.status = SessionStatus.ACTIVE then
      if isFutureDate now completionTime then
        { session := s, tasks := scheduleSessionTasks now tasks s.id s.date,
          cancellationNotice := none }
      else
        let r := endSession env tasks s
        { session := r.session, tasks := r.tasks, cancellationNotice := none }
    else if s.status = SessionStatus.SCHEDULED ∨ s.status = SessionStatus.FULL then
      if 6 ≤ s.partyMembers.length then
        let s1 := if env.updateStatusFails then s
                  else { s with status := SessionStatus.ACTIVE }
        if isFutureDate now completionTime then
          { session := s1, tasks := scheduleSessionTasks now tasks s.id s.date,
            cancellationNotice := none }
        else
          let r := endSession env tasks s1
          { session := r.session, tasks := r.tasks, cancellationNotice := none }
      else
        let r := cancelSession env tasks s
          "Session was not filled before start time (recovered after bot restart)"
        { session := r.session, tasks := r.tasks,
          cancellationNotice := r.cancellationNotice }
    else
      { session := s, tasks := tasks, cancellationNotice := none }

/-- Outcomes of processRoleSelection, from party.types.ts. -/
inductive RoleSelectionStatus
  | LOCKED
  | EXPIRED
  | INVALID
  | REMOVED_FROM_PARTY
  | ROLE_CHANGED
  | ALREADY_IN_SESSION
  | HOSTING_SAME_DAY
  | PARTY_FULL
  | ADDED_TO_PARTY
  deriving DecidableEq, Repr

/-- Modelled from the spec: deletePartyMember of
partyMember.repository.ts (not under src/) removes the roster entry keyed
by the given userId. -/
def deletePartyMember (userId : String) (party : List PartyMember) : List PartyMember :=
  party.filter (fun m => m.userId ≠ userId)

/-- Modelled from the spec: updatePartyMemberRole of user.repository.ts
(not under src/) rewrites, in place, the role of the roster entry keyed by
the given userId. -/
def updatePartyMemberRole (userId : String) (role : RoleType)
    (party : List PartyMember) : List PartyMember :=
  party.map (fun m => if m.userId = userId then { m with role := role } else m)

/-- Modelled from the spec: addUserToPartyIfNotFull of user.repository.ts
(not under src/) atomically inserts the member only when the roster is
strictly below the capacity of 6, returning none on a full roster. -/
def addUserToPartyIfNotFull (m : PartyMember) (party : List PartyMember) :
    Option (List PartyMember) :=
  if party.length < 6 then some (party ++ [m]) else none

/-- session.controller.ts processRoleSelection: guard chain (LOCKED,
EXPIRED, INVALID), then existing-member toggle/change, then the advisory
checks and the atomic admit.  The results of the two advisory store
queries are passed in as parameters; the returned pair is the outcome and
the resulting roster of the session. -/
def processRoleSelection (now : Int) (inAnotherSession hostingSameDay : Bool)
    (s : Session) (req : PartyMember) : RoleSelectionStatus × List PartyMember :=
  let party := s.partyMembers
  if s.status ≠ SessionStatus.SCHEDULED then
    (RoleSelectionStatus.LOCKED, party)
  else if !isFutureDate now s.date then
    (RoleSelectionStatus.EXPIRED, party)
  else if req.role = RoleType.GAME_MASTER then
    (RoleSelectionStatus.INVALID, party)
  else
    match party.find? (fun m => m.userId == req.userId) with
    | some existing =>
        if existing.role = req.role then
          (RoleSelectionStatus.REMOVED_FROM_PARTY, deletePartyMember req.userId party)
        else
          (RoleSelectionStatus.ROLE_CHANGED, updatePartyMemberRole req.userId req.role party)
    | none =>
        if inAnotherSession then
          (RoleSelectionStatus.ALREADY_IN_SESSION, party)
        else if hostingSameDay then
          (RoleSelectionStatus.HOSTING_SAME_DAY, party)
        else
          match addUserToPartyIfNotFull req party with
          | some party2 => (RoleSelectionStatus.ADDED_TO_PARTY, party2)
          | none => (RoleSelectionStatus.PARTY_FULL, party)

/-- A concrete roster entry used by the concrete witnesses below. -/
def sampleMember (i : Nat) (r : RoleType) : PartyMember :=
  { userId := "user" ++ toString i, username := "player" ++ toString i,
    channelId := "dm" ++ toString i, role := r }

/-- A roster of exactly six members. -/
def fullParty : List PartyMember :=
  [sampleMember 0 RoleType.GAME_MASTER, sampleMember 1 RoleType.TANK,
   sampleMember 2 RoleType.SUPPORT, sampleMember 3 RoleType.TANK,
   sampleMember 4 RoleType.SUPPORT, sampleMember 5 RoleType.TANK]

/-- A roster of exactly three members. -/
def smallParty : List PartyMember :=
  [sampleMember 0 RoleType.GAME_MASTER, sampleMember 1 RoleType.TANK,
   sampleMember 2 RoleType.SUPPORT]

/-- A concrete session record used by the concrete witnesses below. -/
def mkSession (st : SessionStatus) (d : Int) (party : List PartyMember) : Session :=
  { id := "msg1", name := "Session 1", date := d, campaignId := "chan1",
    guildId := "guild1", eventId := none, timezone := "UTC", status := st,
    partyMembers := party }

theorem eraseTask_eq_of_findTask_none {m : TaskMap} {id : String}
    (h : findTask m id = none) : eraseTask m id = m := by
  induction m with
  | nil => rfl
  | cons p rest ih =>
    obtain ⟨k, t⟩ := p
    by_cases hk : k = id
    · simp [findTask, hk] at h
    · simp only [findTask, if_neg hk] at h
      simp [eraseTask, hk, ih h]

theorem findTask_eraseTask (m : TaskMap) (id : String) :
    findTask (eraseTask m id) id = none := by
  induction m with
  | nil => rfl
  | cons p rest ih =>
    obtain ⟨k, t⟩ := p
    by_cases hk : k = id
    · simp [eraseTask, hk, ih]
    · simp [eraseTask, findTask, hk, ih]

theorem eraseTask_idem (m : TaskMap) (id : String) :
    eraseTask (eraseTask m id) id = eraseTask m id :=
  eraseTask_eq_of_findTask_none (findTask_eraseTask m id)

theorem cancelSessionTasks_eq_erase (m : TaskMap) (id : String) :
    cancelSessionTasks m id = eraseTask m id := by
  unfold cancelSessionTasks
  cases h : findTask m id with
  | some t => rfl
  | none => rw [eraseTask_eq_of_findTask_none h]

theorem findTask_cancel (m : TaskMap) (id : String) :
    findTask (cancelSessionTasks m id) id = none := by
  rw [cancelSessionTasks_eq_erase]
  exact findTask_eraseTask m id

theorem eraseTask_append (a b : TaskMap) (id : String) :
    eraseTask (a ++ b) id = eraseTask a id ++ eraseTask b id := by
  induction a with
  | nil => rfl
  | cons p rest ih =>
    obtain ⟨k, t⟩ := p
    by_cases hk : k = id <;> simp [eraseTask, hk, ih]

theorem setTask_eq_append_of_findTask_none {m : TaskMap} {id : String}
    (h : findTask m id = none) (t : ScheduledTask) :
    setTask m id t = m ++ [(id, t)] := by
  induction m with
  | nil => rfl
  | cons p rest ih =>
    obtain ⟨k, u⟩ := p
    by_cases hk : k = id
    · simp [findTask, hk] at h
    · simp only [findTask, if_neg hk] at h
      simp [setTask, hk, ih h]

theorem countKey_eraseTask (m : TaskMap) (id : String) :
    countKey (eraseTask m id) id = 0 := by
  induction m with
  | nil => rfl
  | cons p rest ih =>
    obtain ⟨k, t⟩ := p
    by_cases hk : k = id <;> simp [eraseTask, countKey, hk, ih]

theorem countKey_append (a b : TaskMap) (id : String) :
    countKey (a ++ b) id = countKey a id + countKey b id := by
  induction a with
  | nil => simp [countKey]
  | cons p rest ih =>
    obtain ⟨k, t⟩ := p
    simp [countKey, ih, Nat.add_assoc]

theorem findTask_append_of_none {a : TaskMap} (b : TaskMap) {id : String}
    (h : findTask a id = none) :
    findTask (a ++ b) id = findTask b id := by
  induction a with
  | nil => rfl
  | cons p rest ih =>
    obtain ⟨k, t⟩ := p
    by_cases hk : k = id
    · simp [findTask, hk] at h
    · simp only [findTask, if_neg hk] at h ⊢
      exact ih h

theorem scheduleSessionTasks_eq (now : Int) (m : TaskMap) (id : String) (d : Int) :
    scheduleSessionTasks now m id d =
      if (mkScheduledTask now id d).reminderJob.isSome
          || (mkScheduledTask now id d).cancellationJob.isSome
          || (mkScheduledTask now id d).completionJob.isSome then
        eraseTask m id ++ [(id, mkScheduledTask now id d)]
      else eraseTask m id := by
  simp only [scheduleSessionTasks, cancelSessionTasks_eq_erase]
  split
  · exact setTask_eq_append_of_findTask_none (findTask_eraseTask m id) _
  · rfl

/-- C9: in cancelSession and endSession a failure of the critical status
write is re-raised to the caller and leaves the status unchanged, while
failures of the optional side effects (external event deletion, message
regeneration, party notification) are swallowed and never prevent or
reverse the CANCELED/COMPLETED transition: whether an error is raised and
what status is persisted depend only on the status-write flag. -/
theorem cancel_end_error_handling (env : EffectEnv) (tasks : TaskMap)
    (s : Session) (reason : String) :
    (cancelSession env tasks s reason).raised = env.updateStatusFails ∧
    (cancelSession env tasks s reason).session.status =
      (if env.updateStatusFails then s.status else SessionStatus.CANCELED) ∧
    (endSession env tasks s).raised = env.updateStatusFails ∧
    (endSession env tasks s).session.status =
      (if env.updateStatusFails then s.status else SessionStatus.COMPLETED) := by
  cases h : env.updateStatusFails <;> simp [cancelSession, endSession, h]

/-- C6: calling scheduleSessionTasks twice in succession with the same id
and date yields exactly the state of calling it once; the registry never
holds more than one entry for the id, and holds exactly one whenever at
least one timer was installed: each invocation first cancels and removes
any prior set, an idempotent replace, never additive. -/
theorem scheduleSessionTasks_idempotent_replace (now : Int) (m : TaskMap)
    (id : String) (d : Int) :
    scheduleSessionTasks now (scheduleSessionTasks now m id d) id d
      = scheduleSessionTasks now m id d ∧
    countKey (scheduleSessionTasks now m id d) id ≤ 1 ∧
    (((mkScheduledTask now id d).reminderJob.isSome
        || (mkScheduledTask now id d).cancellationJob.isSome
        || (mkScheduledTask now id d).completionJob.isSome) = true →
      countKey (scheduleSessionTasks now m id d) id = 1) := by
  cases hc : ((mkScheduledTask now id d).reminderJob.isSome
      || (mkScheduledTask now id d).cancellationJob.isSome
      || (mkScheduledTask now id d).completionJob.isSome) with
  | true =>
    refine ⟨?_, ?_, fun _ => ?_⟩ <;>
      simp [scheduleSessionTasks_eq, hc, eraseTask_append, eraseTask_idem,
        countKey_append, countKey_eraseTask, countKey, eraseTask]
  | false =>
    refine ⟨?_, ?_, fun hcontra => ?_⟩
    · simp [scheduleSessionTasks_eq, hc, eraseTask_idem]
    · simp [scheduleSessionTasks_eq, hc, countKey_eraseTask]
    · simp at hcontra

/-- Witness for C6 at a concrete future date: exactly one registry entry
results from scheduling twice. -/
theorem scheduleSessionTasks_idempotent_replace_witness :
    scheduleSessionTasks 0 (scheduleSessionTasks 0 [] "msg1" 100000000) "msg1" 100000000
      = scheduleSessionTasks 0 [] "msg1" 100000000 ∧
    countKey (scheduleSessionTasks 0 [] "msg1" 100000000) "msg1" = 1 := by
  have h := scheduleSessionTasks_idempotent_replace 0 [] "msg1" 100000000
  exact ⟨h.1, h.2.2 (by decide)⟩

/-- C10: scheduleSessionTasks installs a job for exactly the target
instants (start minus 1 hour, start minus 5 minutes, start plus 5 hours)
still in the future and registers an entry for the id exactly when at
least one job was installed; when all three instants have passed, the call
leaves no entry for the id, degenerates to a pure cancel of any prior
entry, and getScheduledTaskCount does not count the id. -/
theorem scheduleSessionTasks_installs_future_instants (now : Int)
    (m : TaskMap) (id : String) (d : Int) :
    (findTask (scheduleSessionTasks now m id d) id =
      if isFutureDate now (getHoursBefore d 1) || isFutureDate now (getMinutesBefore d 5)
          || isFutureDate now (getHoursAfter d 5) then
        some { sessionId := id,
               reminderJob := if isFutureDate now (getHoursBefore d 1)
                 then some (getHoursBefore d 1) else none,
               cancellationJob := if isFutureDate now (getMinutesBefore d 5)
                 then some (getMinutesBefore d 5) else none,
               completionJob := if isFutureDate now (getHoursAfter d 5)
                 then some (getHoursAfter d 5) else none }
      else none) ∧
    (isFutureDate now (getHoursBefore d 1) = false →
     isFutureDate now (getMinutesBefore d 5) = false →
     isFutureDate now (getHoursAfter d 5) = false →
      scheduleSessionTasks now m id d = eraseTask m id ∧
      findTask (scheduleSessionTasks now m id d) id = none ∧
      getScheduledTaskCount (scheduleSessionTasks now m id d)
        = getScheduledTaskCount (eraseTask m id) ∧
      countKey (scheduleSessionTasks now m id d) id = 0) := by
  cases h1 : isFutureDate now (getHoursBefore d 1) <;>
  cases h2 : isFutureDate now (getMinutesBefore d 5) <;>
  cases h3 : isFutureDate now (getHoursAfter d 5) <;>
    simp [scheduleSessionTasks_eq, mkScheduledTask, h1, h2, h3,
      findTask_append_of_none _ (findTask_eraseTask m id),
      findTask_eraseTask, findTask, countKey_eraseTask]

/-- Witness for C10 at a concrete all-past input with a stale prior
entry. -/
theorem scheduleSessionTasks_installs_future_instants_witness :
    scheduleSessionTasks 100000000 [("msg1", mkScheduledTask 0 "msg1" 50)] "msg1" 0
      = eraseTask [("msg1", mkScheduledTask 0 "msg1" 50)] "msg1" ∧
    findTask (scheduleSessionTasks 100000000
      [("msg1", mkScheduledTask 0 "msg1" 50)] "msg1" 0) "msg1" = none := by
  have h := scheduleSessionTasks_installs_future_instants 100000000
    [("msg1", mkScheduledTask 0 "msg1" 50)] "msg1" 0
  have h2 := h.2 (by decide) (by decide) (by decide)
  exact ⟨h2.1, h2.2.1⟩

/-- C1: when the fill-deadline handler runs for a session whose roster size
equals the capacity of 6, the status is transitioned to ACTIVE, but,
contrary to the claim, the handler then cancels every remaining timer of
the session (the unconditional cancelSessionTasks at the end of
handleCancellation), so no completion timer remains scheduled for the
id. -/
theorem handleCancellation_full_party (env : EffectEnv) (tasks : TaskMap)
    (s : Session) (h6 : s.partyMembers.length = 6)
    (henv : env.updateStatusFails = false) :
    (handleCancellation env tasks s).session.status = SessionStatus.ACTIVE ∧
    findTask (handleCancellation env tasks s).tasks s.id = none := by
  simp [handleCancellation, h6, henv, findTask_cancel]

/-- Witness for C1: a FULL six-member session whose registry holds an
active completion timer; after the handler the status is ACTIVE yet the
registry no longer holds any timer for the session. -/
theorem handleCancellation_full_party_witness :
    (handleCancellation noFail
      [("msg1", { sessionId := "msg1", completionJob := some 18000000 })]
      (mkSession SessionStatus.FULL 0 fullParty)).session.status = SessionStatus.ACTIVE ∧
    findTask (handleCancellation noFail
      [("msg1", { sessionId := "msg1", completionJob := some 18000000 })]
      (mkSession SessionStatus.FULL 0 fullParty)).tasks
      (mkSession SessionStatus.FULL 0 fullParty).id = none :=
  handleCancellation_full_party noFail _ _ (by decide) rfl

/-- C2 counterexample: endSession on an already CANCELED session overwrites
the terminal status with COMPLETED instead of leaving it unchanged. -/
theorem endSession_overwrites_terminal_status :
    (mkSession SessionStatus.CANCELED 0 []).status = SessionStatus.CANCELED ∧
    (endSession noFail [] (mkSession SessionStatus.CANCELED 0 [])).session.status
      = SessionStatus.COMPLETED := by
  constructor <;> rfl

/-- C2 amended: a late completion-timer firing on a terminal (COMPLETED or
CANCELED) session is a no-op on the status, but the manual paths do not
guard on terminal state: cancelSession unconditionally persists CANCELED
and endSession unconditionally persists COMPLETED even from a terminal
status. -/
theorem terminal_status_transitions (env : EffectEnv) (tasks : TaskMap)
    (s : Session) (reason : String)
    (hterm : s.status = SessionStatus.COMPLETED ∨ s.status = SessionStatus.CANCELED)
    (henv : env.updateStatusFails = false) :
    (handleCompletion env tasks s).session.status = s.status ∧
    (cancelSession env tasks s reason).session.status = SessionStatus.CANCELED ∧
    (endSession env tasks s).session.status = SessionStatus.COMPLETED := by
  have hne : s.status ≠ SessionStatus.ACTIVE := by
    rcases hterm with h | h <;> simp [h]
  simp [handleCompletion, hne, cancelSession, endSession, henv]

/-- Witness for C2 amended at a COMPLETED session. -/
theorem terminal_status_transitions_witness :
    (handleCompletion noFail [] (mkSession SessionStatus.COMPLETED 0 [])).session.status
      = SessionStatus.COMPLETED ∧
    (cancelSession noFail [] (mkSession SessionStatus.COMPLETED 0 []) "r").session.status
      = SessionStatus.CANCELED ∧
    (endSession noFail [] (mkSession SessionStatus.COMPLETED 0 [])).session.status
      = SessionStatus.COMPLETED :=
  terminal_status_transitions noFail [] _ "r" (Or.inl rfl) rfl

/-- C3: when the fill-deadline handler runs for a session whose roster size
is strictly below 6, the session is canceled with the reason string
"Insufficient players (size/6)" built from the observed roster size, and
every remaining timer for the session is canceled. -/
theorem handleCancellation_unfilled (env : EffectEnv) (tasks : TaskMap)
    (s : Session) (hsize : s.partyMembers.length < 6)
    (henv : env.updateStatusFails = false) :
    (handleCancellation env tasks s).session.status = SessionStatus.CANCELED ∧
    (handleCancellation env tasks s).cancellationNotice =
      some ("Insufficient players (" ++ toString s.partyMembers.length ++ "/6)") ∧
    findTask (handleCancellation env tasks s).tasks s.id = none := by
  have hlt : ¬ (6 ≤ s.partyMembers.length) := Nat.not_le.mpr hsize
  simp [handleCancellation, cancelUnfilledSession, cancelSession, hlt, henv,
    findTask_cancel]

/-- Witness for C3: a three-member session is canceled with the literal
reason string for 3 of 6. -/
theorem handleCancellation_unfilled_witness :
    (handleCancellation noFail []
      (mkSession SessionStatus.SCHEDULED 0 smallParty)).session.status
      = SessionStatus.CANCELED ∧
    (handleCancellation noFail []
      (mkSession SessionStatus.SCHEDULED 0 smallParty)).cancellationNotice
      = some "Insufficient players (3/6)" ∧
    findTask (handleCancellation noFail []
      (mkSession SessionStatus.SCHEDULED 0 smallParty)).tasks
      (mkSession SessionStatus.SCHEDULED 0 smallParty).id = none := by
  have h := handleCancellation_unfilled noFail []
    (mkSession SessionStatus.SCHEDULED 0 smallParty) (by decide) rfl
  refine ⟨h.1, ?_, h.2.2⟩
  rw [h.2.1]
  rfl

/-- C4: the completion effect is path-independent: on a reloaded ACTIVE
session it persists COMPLETED, both when the online completion timer fires
(handleCompletion) and when the startup reconciler runs it immediately for
an ACTIVE session whose completion instant has passed
(handleMissedSession); on a non-ACTIVE reloaded session the online handler
leaves the session unchanged; and the online handler removes the
ScheduledTaskSet entry afterward in both cases. -/
theorem completion_effect_equivalence (env : EffectEnv) (now : Int)
    (tasks : TaskMap) (s : Session) (henv : env.updateStatusFails = false) :
    (s.status = SessionStatus.ACTIVE →
      (handleCompletion env tasks s).session.status = SessionStatus.COMPLETED) ∧
    (s.status ≠ SessionStatus.ACTIVE →
      (handleCompletion env tasks s).session = s) ∧
    findTask (handleCompletion env tasks s).tasks s.id = none ∧
    (s.status = SessionStatus.ACTIVE →
      isFutureDate now s.date = false →
      isFutureDate now (getHoursAfter s.date 5) = false →
      (handleMissedSession now env tasks s).session.status = SessionStatus.COMPLETED) := by
  refine ⟨?_, ?_, ?_, ?_⟩
  · intro h
    simp [handleCompletion, h, endSession, henv]
  · intro h
    simp [handleCompletion, h]
  · by_cases h : s.status = SessionStatus.ACTIVE
    · simp [handleCompletion, h, endSession, henv, findTask_cancel]
    · simp [handleCompletion, h, findTask_cancel]
  · intro h hs hc
    simp [handleMissedSession, h, hs, hc, endSession, henv]

/-- Witness for C4: an ACTIVE session past its completion instant ends
COMPLETED on the online path and on the recovery path. -/
theorem completion_effect_equivalence_witness :
    (handleCompletion noFail []
      (mkSession SessionStatus.ACTIVE 0 fullParty)).session.status
      = SessionStatus.COMPLETED ∧
    (handleMissedSession 100000000 noFail []
      (mkSession SessionStatus.ACTIVE 0 fullParty)).session.status
      = SessionStatus.COMPLETED := by
  have h := completion_effect_equivalence noFail 100000000 []
    (mkSession SessionStatus.ACTIVE 0 fullParty) rfl
  exact ⟨h.1 rfl, h.2.2.2 rfl (by decide) (by decide)⟩

/-- C5 counterexample: a GAME_MASTER role request on an ACTIVE session
yields LOCKED, not INVALID, because the status guard precedes the
exclusive-role guard in processRoleSelection. -/
theorem processRoleSelection_gm_not_always_invalid :
    (processRoleSelection 0 false false (mkSession SessionStatus.ACTIVE 100 fullParty)
      (sampleMember 7 RoleType.GAME_MASTER)).1 = RoleSelectionStatus.LOCKED ∧
    RoleSelectionStatus.LOCKED ≠ RoleSelectionStatus.INVALID := by
  exact ⟨rfl, by decide⟩

/-- C5 amended: a role-selection request for the exclusive GAME_MASTER role
never mutates the roster, and its outcome is fully determined by the
preceding guards: LOCKED whenever the session status is not SCHEDULED,
EXPIRED on a SCHEDULED session whose start has passed, and INVALID exactly
in the remaining case, a SCHEDULED session with a future scheduledStart. -/
theorem processRoleSelection_gm (now : Int) (inA host : Bool) (s : Session)
    (req : PartyMember) (hrole : req.role = RoleType.GAME_MASTER) :
    (processRoleSelection now inA host s req).2 = s.partyMembers ∧
    (processRoleSelection now inA host s req).1 =
      (if s.status ≠ SessionStatus.SCHEDULED then RoleSelectionStatus.LOCKED
       else if isFutureDate now s.date = false then RoleSelectionStatus.EXPIRED
       else RoleSelectionStatus.INVALID) := by
  by_cases h1 : s.status = SessionStatus.SCHEDULED
  · cases h2 : isFutureDate now s.date <;>
      simp [processRoleSelection, h1, h2, hrole]
  · simp [processRoleSelection, h1]

/-- Witness for C5 amended: the GM request yields INVALID on a SCHEDULED
future session (roster unchanged), EXPIRED on a SCHEDULED session whose
start has passed, and LOCKED on a FULL session. -/
theorem processRoleSelection_gm_witness :
    (processRoleSelection 0 false false (mkSession SessionStatus.SCHEDULED 100 fullParty)
      (sampleMember 7 RoleType.GAME_MASTER)).1 = RoleSelectionStatus.INVALID ∧
    (processRoleSelection 0 false false (mkSession SessionStatus.SCHEDULED 100 fullParty)
      (sampleMember 7 RoleType.GAME_MASTER)).2
      = (mkSession SessionStatus.SCHEDULED 100 fullParty).partyMembers ∧
    (processRoleSelection 200 false false (mkSession SessionStatus.SCHEDULED 100 fullParty)
      (sampleMember 7 RoleType.GAME_MASTER)).1 = RoleSelectionStatus.EXPIRED ∧
    (processRoleSelection 0 false false (mkSession SessionStatus.FULL 100 fullParty)
      (sampleMember 7 RoleType.GAME_MASTER)).1 = RoleSelectionStatus.LOCKED := by
  have hinv := processRoleSelection_gm 0 false false
    (mkSession SessionStatus.SCHEDULED 100 fullParty)
    (sampleMember 7 RoleType.GAME_MASTER) rfl
  have hexp := processRoleSelection_gm 200 false false
    (mkSession SessionStatus.SCHEDULED 100 fullParty)
    (sampleMember 7 RoleType.GAME_MASTER) rfl
  have hlock := processRoleSelection_gm 0 false false
    (mkSession SessionStatus.FULL 100 fullParty)
    (sampleMember 7 RoleType.GAME_MASTER) rfl
  refine ⟨?_, hinv.1, ?_, ?_⟩
  · rw [hinv.2]
    rfl
  · rw [hexp.2]
    rfl
  · rw [hlock.2]
    rfl

/-- C7 counterexample: the startup reconciler cancels a past-start unfilled
SCHEDULED session with the recovery reason, not with the shortfall reason
"Insufficient players (3/6)" the online fill-deadline path produces for a
three-member roster. -/
theorem handleMissedSession_reason_differs :
    (handleMissedSession 100000000 noFail []
      (mkSession SessionStatus.SCHEDULED 0 smallParty)).session.status
      = SessionStatus.CANCELED ∧
    (handleMissedSession 100000000 noFail []
      (mkSession SessionStatus.SCHEDULED 0 smallParty)).cancellationNotice
      = some "Session was not filled before start time (recovered after bot restart)" ∧
    (handleMissedSession 100000000 noFail []
      (mkSession SessionStatus.SCHEDULED 0 smallParty)).cancellationNotice
      ≠ some "Insufficient players (3/6)" := by
  refine ⟨rfl, rfl, by decide⟩

/-- C7 amended: for a past-start SCHEDULED or FULL session whose roster is
below capacity the reconciler persists CANCELED, reaching the same final
status as the online fill-deadline path, but with the recovery reason
"Session was not filled before start time (recovered after bot restart)"
instead of the shortfall-format reason. -/
theorem handleMissedSession_unfilled (now : Int) (env : EffectEnv)
    (tasks : TaskMap) (s : Session)
    (hpast : isFutureDate now s.date = false)
    (hstatus : s.status = SessionStatus.SCHEDULED ∨ s.status = SessionStatus.FULL)
    (hsize : s.partyMembers.length < 6)
    (henv : env.updateStatusFails = false) :
    (handleMissedSession now env tasks s).session.status = SessionStatus.CANCELED ∧
    (handleMissedSession now env tasks s).cancellationNotice =
      some "Session was not filled before start time (recovered after bot restart)" := by
  have hle : ¬ (6 ≤ s.partyMembers.length) := Nat.not_le.mpr hsize
  rcases hstatus with h | h <;>
    simp [handleMissedSession, hpast, h, hle, cancelSession, henv]

/-- Witness for C7 amended at a stale FULL session with three members. -/
theorem handleMissedSession_unfilled_witness :
    (handleMissedSession 100000000 noFail []
      (mkSession SessionStatus.FULL 0 smallParty)).session.status
      = SessionStatus.CANCELED ∧
    (handleMissedSession 100000000 noFail []
      (mkSession SessionStatus.FULL 0 smallParty)).cancellationNotice
      = some "Session was not filled before start time (recovered after bot restart)" :=
  handleMissedSession_unfilled 100000000 noFail [] _ (by decide) (Or.inr rfl)
    (by decide) rfl

/-- C8: on a SCHEDULED session with a future start, a non-exclusive role
request by a member already on the roster removes exactly that member when
the requested role equals the current one (REMOVED_FROM_PARTY) and
rewrites exactly that member's role in place otherwise (ROLE_CHANGED);
entries of other members are untouched either way. -/
theorem processRoleSelection_existing_member (now : Int) (inA host : Bool)
    (s : Session) (req existing : PartyMember)
    (hstatus : s.status = SessionStatus.SCHEDULED)
    (hfuture : isFutureDate now s.date = true)
    (hrole : req.role ≠ RoleType.GAME_MASTER)
    (hfind : s.partyMembers.find? (fun m => m.userId == req.userId) = some existing) :
    (existing.role = req.role →
      (processRoleSelection now inA host s req).1 = RoleSelectionStatus.REMOVED_FROM_PARTY ∧
      (∀ m ∈ (processRoleSelection now inA host s req).2,
        m ∈ s.partyMembers ∧ m.userId ≠ req.userId) ∧
      (∀ m ∈ s.partyMembers, m.userId ≠ req.userId →
        m ∈ (processRoleSelection now inA host s req).2)) ∧
    (existing.role ≠ req.role →
      (processRoleSelection now inA host s req).1 = RoleSelectionStatus.ROLE_CHANGED ∧
      (processRoleSelection now inA host s req).2.length = s.partyMembers.length ∧
      (∀ m ∈ s.partyMembers, m.userId ≠ req.userId →
        m ∈ (processRoleSelection now inA host s req).2) ∧
      (∀ m ∈ s.partyMembers, m.userId = req.userId →
        { m with role := req.role } ∈ (processRoleSelection now inA host s req).2)) := by
  have hred : processRoleSelection now inA host s req =
      (if existing.role = req.role then
        (RoleSelectionStatus.REMOVED_FROM_PARTY, deletePartyMember req.userId s.partyMembers)
      else
        (RoleSelectionStatus.ROLE_CHANGED,
          updatePartyMemberRole req.userId req.role s.partyMembers)) := by
    simp [processRoleSelection, hstatus, hfuture, hrole, hfind]
  constructor
  · intro hcase
    rw [hred, if_pos hcase]
    refine ⟨rfl, ?_, ?_⟩
    · intro m hm
      simp [deletePartyMember, List.mem_filter] at hm
      exact hm
    · intro m hm hne
      simp [deletePartyMember, List.mem_filter]
      exact ⟨hm, hne⟩
  · intro hcase
    rw [hred, if_neg hcase]
    refine ⟨rfl, ?_, ?_, ?_⟩
    · simp [updatePartyMemberRole]
    · intro m hm hne
      simp only [updatePartyMemberRole, List.mem_map]
      exact ⟨m, hm, by rw [if_neg hne]⟩
    · intro m hm heq
      simp only [updatePartyMemberRole, List.mem_map]
      exact ⟨m, hm, by rw [if_pos heq]⟩

/-- Witness for C8: the TANK member re-selecting TANK on a SCHEDULED
future session is removed from the party. -/
theorem processRoleSelection_existing_member_witness :
    (processRoleSelection 0 false false
      (mkSession SessionStatus.SCHEDULED 100 smallParty)
      (sampleMember 1 RoleType.TANK)).1 = RoleSelectionStatus.REMOVED_FROM_PARTY := by
  have h := processRoleSelection_existing_member 0 false false
    (mkSession SessionStatus.SCHEDULED 100 smallParty)
    (sampleMember 1 RoleType.TANK) (sampleMember 1 RoleType.TANK)
    rfl (by decide) (by decide) (by decide)
  exact (h.1 rfl).1

end PartyManager
